import Mathlib

/-!
Shallow embedding of `event_generator.py` (class `EventGenerator`):
deterministic date/time formatting, keyword-based example/audience selection,
prompt assembly, fallback generation, and the orchestration around the
remote Bedrock model call.  The Bedrock call itself is external
nondeterminism; it is modelled by passing its outcome
(`Except GenError BedrockResponse`) as an explicit argument.

Python string primitives (`str.lower`, `str.split`, `str.strip`,
`str.lstrip("0")`, substring `in`) are embedded over `List Char`.
`datetime.strptime` with the formats `"%Y-%m-%d"`, `"%H:%M"` and
`"%Y-%m-%d %H:%M"` is embedded as a backtracking parser mirroring the
regexes CPython's `_strptime` builds for those directives
(`%Y` = four digits, `%m` = `1[0-2]|0[1-9]|[1-9]`,
`%d` = `3[01]|[12]\d|0[1-9]|[1-9]| [1-9]`, `%H` = `2[0-3]|[0-1]\d|\d`,
`%M` = `[0-5]\d|\d`, a space in the format = `\s+`, a full-input match,
then calendar validation by the `datetime` constructor).
-/

/-- Python `str.lower()` restricted to ASCII, which is all the catalogs use. -/
def lowerStr (s : String) : String := String.mk (s.data.map Char.toLower)

/-- Python `s.lstrip("0")`: drop the leading `'0'` characters. -/
def lstrip0 (s : String) : String := String.mk (s.data.dropWhile (fun c => c == '0'))

/-- ASCII `\s` of Python's `re` module, also the ASCII part of `str.isspace`. -/
def pyIsSpace (c : Char) : Bool :=
  c == ' ' || c == '\t' || c == '\n' || c == '\r' || c == '\x0b' || c == '\x0c'

/-- Python `str.strip()` with no argument: drop leading and trailing
whitespace. -/
def pyStrip (s : String) : String :=
  String.mk (((s.data.dropWhile pyIsSpace).reverse.dropWhile pyIsSpace).reverse)

/-- Splitter for `str.split()`: `cur` holds the current word reversed. -/
def pySplitAux : List Char → List Char → List String
  | [], cur => if cur.isEmpty then [] else [String.mk cur.reverse]
  | c :: rest, cur =>
    if pyIsSpace c then
      if cur.isEmpty then pySplitAux rest []
      else String.mk cur.reverse :: pySplitAux rest []
    else pySplitAux rest (c :: cur)

/-- Python `str.split()` with no argument: whitespace-run split, no empties. -/
def pySplit (s : String) : List String := pySplitAux s.data []

/-- Whether `pat` occurs as a contiguous subsequence of `hay` (Python `pat in hay`). -/
def containsSeq (pat : List Char) : List Char → Bool
  | [] => pat.isEmpty
  | c :: rest => pat.isPrefixOf (c :: rest) || containsSeq pat rest

/-- Python substring test `pat in hay` on strings. -/
def containsSubstr (hay pat : String) : Bool := containsSeq pat.data hay.data

/-- Gregorian leap-year rule used by `datetime`. -/
def isLeap (y : Nat) : Bool := y % 4 == 0 && (y % 100 != 0 || y % 400 == 0)

/-- Number of days in a month, as validated by the `datetime` constructor. -/
def daysInMonth (y m : Nat) : Nat :=
  match m with
  | 1 => 31 | 2 => if isLeap y then 29 else 28 | 3 => 31 | 4 => 30
  | 5 => 31 | 6 => 30 | 7 => 31 | 8 => 31 | 9 => 30 | 10 => 31
  | 11 => 30 | 12 => 31 | _ => 0

/-- `datetime` accepts years `1..9999`; `%Y` already bounds the year below `10000`. -/
def validDate (y m d : Nat) : Bool := 1 ≤ y && d ≤ daysInMonth y m

def digitVal (c : Char) : Nat := c.toNat - 48

/-- `%m` directive `1[0-2]|0[1-9]|[1-9]`, in regex alternation order with
backtracking into the continuation `k`. -/
def monthThen (k : Nat → List Char → Option α) : List Char → Option α
  | [] => none
  | c1 :: rest1 =>
    (match rest1 with
     | c2 :: rest2 =>
       if c1 == '1' && ('0' ≤ c2 && c2 ≤ '2') then k (10 + digitVal c2) rest2
       else if c1 == '0' && ('1' ≤ c2 && c2 ≤ '9') then k (digitVal c2) rest2
       else none
     | [] => none) <|>
    (if '1' ≤ c1 && c1 ≤ '9' then k (digitVal c1) rest1 else none)

/-- `%d` directive `3[01]|[12]\d|0[1-9]|[1-9]| [1-9]`. -/
def dayThen (k : Nat → List Char → Option α) : List Char → Option α
  | [] => none
  | c1 :: rest1 =>
    (match rest1 with
     | c2 :: rest2 =>
       if c1 == '3' && (c2 == '0' || c2 == '1') then k (30 + digitVal c2) rest2
       else if (c1 == '1' || c1 == '2') && c2.isDigit then
         k (digitVal c1 * 10 + digitVal c2) rest2
       else if c1 == '0' && ('1' ≤ c2 && c2 ≤ '9') then k (digitVal c2) rest2
       else if c1 == ' ' && ('1' ≤ c2 && c2 ≤ '9') then k (digitVal c2) rest2
       else none
     | [] => none) <|>
    (if '1' ≤ c1 && c1 ≤ '9' then k (digitVal c1) rest1 else none)

/-- `%H` directive `2[0-3]|[0-1]\d|\d`. -/
def hourThen (k : Nat → List Char → Option α) : List Char → Option α
  | [] => none
  | c1 :: rest1 =>
    (match rest1 with
     | c2 :: rest2 =>
       if c1 == '2' && ('0' ≤ c2 && c2 ≤ '3') then k (20 + digitVal c2) rest2
       else if (c1 == '0' || c1 == '1') && c2.isDigit then
         k (digitVal c1 * 10 + digitVal c2) rest2
       else none
     | [] => none) <|>
    (if c1.isDigit then k (digitVal c1) rest1 else none)

/-- `%M` directive `[0-5]\d|\d`. -/
def minuteThen (k : Nat → List Char → Option α) : List Char → Option α
  | [] => none
  | c1 :: rest1 =>
    (match rest1 with
     | c2 :: rest2 =>
       if ('0' ≤ c1 && c1 ≤ '5') && c2.isDigit then
         k (digitVal c1 * 10 + digitVal c2) rest2
       else none
     | [] => none) <|>
    (if c1.isDigit then k (digitVal c1) rest1 else none)

/-- `%Y-%m-%d`: four digits, `-`, month, `-`, day, then the continuation. -/
def dateThen (k : Nat → Nat → Nat → List Char → Option α) : List Char → Option α
  | y1 :: y2 :: y3 :: y4 :: '-' :: rest =>
    if y1.isDigit && y2.isDigit && y3.isDigit && y4.isDigit then
      let y := digitVal y1 * 1000 + digitVal y2 * 100 + digitVal y3 * 10 + digitVal y4
      monthThen (fun m r =>
        match r with
        | '-' :: r2 => dayThen (fun d r3 => k y m d r3) r2
        | _ => none) rest
    else none
  | _ => none

/-- `%H:%M`: hour, `:`, minute, then the continuation. -/
def timeThen (k : Nat → Nat → List Char → Option α) : List Char → Option α :=
  hourThen (fun h r =>
    match r with
    | ':' :: r2 => minuteThen (fun mi r3 => k h mi r3) r2
    | _ => none)

/-- A whitespace character then any further whitespace (`\s+`). -/
def skipWs1 : List Char → Option (List Char)
  | [] => none
  | c :: rest => if pyIsSpace c then some (rest.dropWhile pyIsSpace) else none

/-- `datetime.strptime(s, "%Y-%m-%d")`, as year/month/day. -/
def parseDate (s : String) : Option (Nat × Nat × Nat) :=
  dateThen (fun y m d rest =>
    if rest.isEmpty && validDate y m d then some (y, m, d) else none) s.data

/-- `datetime.strptime(s, "%H:%M").time()`, as hour/minute. -/
def parseTime (s : String) : Option (Nat × Nat) :=
  timeThen (fun h mi rest => if rest.isEmpty then some (h, mi) else none) s.data

/-- `datetime.strptime(s, "%Y-%m-%d %H:%M")`. -/
def parseDateTime (s : String) : Option ((Nat × Nat × Nat) × (Nat × Nat)) :=
  dateThen (fun y m d rest =>
    match skipWs1 rest with
    | some r2 =>
      timeThen (fun h mi r3 =>
        if r3.isEmpty && validDate y m d then some ((y, m, d), (h, mi)) else none) r2
    | none => none) s.data

/-- Sakamoto's day-of-week for the proleptic Gregorian calendar; 0 is Sunday,
matching what `datetime.strftime("%A")` renders. -/
def weekdayIndex (y m d : Nat) : Nat :=
  let y' := if m < 3 then y - 1 else y
  let t := [0, 3, 2, 5, 0, 3, 5, 1, 4, 6, 2, 4].getD (m - 1) 0
  (y' + y' / 4 + y' / 400 + t + d - y' / 100) % 7

def weekdayName (y m d : Nat) : String :=
  ["Sunday", "Monday", "Tuesday", "Wednesday", "Thursday", "Friday",
   "Saturday"].getD (weekdayIndex y m d) ""

def monthName (m : Nat) : String :=
  ["January", "February", "March", "April", "May", "June", "July", "August",
   "September", "October", "November", "December"].getD (m - 1) ""

/-- Two-digit zero padding (`%d`, `%I`, `%M`). -/
def pad2 (n : Nat) : String := if n < 10 then "0" ++ toString n else toString n

/-- The 12-hour clock hour rendered by `%I`, always in `1..12`. -/
def hour12 (h : Nat) : Nat := if h % 12 == 0 then 12 else h % 12

/-- `%p` for `datetime`: `AM` before noon, `PM` from noon on. -/
def ampm (h : Nat) : String := if h < 12 then "AM" else "PM"

/-- `strftime("%A, %B %d, %Y")`. -/
def fmtLongDate (y m d : Nat) : String :=
  weekdayName y m d ++ ", " ++ monthName m ++ " " ++ pad2 d ++ ", " ++ toString y

/-- `strftime("%I:%M %p")`. -/
def fmtTime12 (h mi : Nat) : String :=
  pad2 (hour12 h) ++ ":" ++ pad2 mi ++ " " ++ ampm h

/-- `EventGenerator._format_datetime`: the `try` body on parse success, the
`except` branch returning `f"{date_str} at {time_str}"` on failure. -/
def _format_datetime (date_str time_str : String) : String :=
  match parseDate date_str, parseTime time_str with
  | some (y, m, d), some (h, mi) =>
    fmtLongDate y m d ++ " at " ++ lstrip0 (fmtTime12 h mi)
  | _, _ => date_str ++ " at " ++ time_str

/-- `EventGenerator._get_event_duration`: parse both `f"{date} {time}"`
endpoints; same-day renders the date once with both times individually
`lstrip("0")`-ped, multi-day renders both full stamps with `lstrip("0")`
applied to each whole stamp; any parse failure echoes the inputs. -/
def _get_event_duration (start_date end_date start_time end_time : String) : String :=
  match parseDateTime (start_date ++ " " ++ start_time),
        parseDateTime (end_date ++ " " ++ end_time) with
  | some ((y1, m1, d1), (h1, mi1)), some ((y2, m2, d2), (h2, mi2)) =>
    if start_date == end_date then
      fmtLongDate y1 m1 d1 ++ ", " ++ lstrip0 (fmtTime12 h1 mi1) ++ " to " ++
        lstrip0 (fmtTime12 h2 mi2)
    else
      lstrip0 (fmtLongDate y1 m1 d1 ++ " at " ++ fmtTime12 h1 mi1) ++ " to " ++
        lstrip0 (fmtLongDate y2 m2 d2 ++ " at " ++ fmtTime12 h2 mi2)
  | _, _ => start_date ++ " " ++ start_time ++ " to " ++ end_date ++ " " ++ end_time

/-- The three entries of `self.example_descriptions`, verbatim. -/
def careerFairDescription : String := "\n            NIWC Atlantic is hosting a Career Fair at Charleston Southern University. This event will showcase career opportunities and allow students to interact with professionals from various fields. Students will have the opportunity to learn about different career paths, required skills, and education requirements. Representatives will be available to discuss internship and job opportunities.\n            "

def stemActivityDescription : String := "\n            NIWC Atlantic regularly hosts targeted STEM Activity sessions. For the Spring of 2025, the activity is Life Budgeting. Life Budgeting is a scenario-based activity where students are randomly assigned a career, salary, family, and credit score. They must use that scenario to make financial decisions such as housing and transportation. Life budgeting is held within a classroom setting, with NIWC Atlantic professionals teaching the curriculum, and is designed to fit within a standard class period. Multiple sessions may be taught in a day.\n            "

def workshopDescription : String := "\n            Join us for our hands-on Robotics Workshop, designed to introduce students to the fundamentals of robotics engineering. Participants will learn about mechanical design, programming, and problem-solving while building and programming their own robot. This interactive workshop is suitable for students with no prior robotics experience and will give them insight into STEM career pathways.\n            "

/-- The two entries of `self.example_volunteer_expectations`, verbatim. -/
def careerFairVolunteerExpectations : String := "\n            # Volunteer Expectations - Career Fair\n\n            ## Arrival and Check-in\n            * Please arrive by 8:00 AM (1 hour before the event starts) for setup and briefing\n            * Check in at the Registration Desk in the main lobby\n            * Wear your NIWC Atlantic badge for identification\n\n\n\n            ## Items to Bring\n            * Business cards\n            * Prepared talking points about your role and department\n            * Any demonstration materials you've been assigned\n\n            ## Responsibilities\n            * Staff your assigned booth for the duration of the event\n            * Engage with students and discuss career opportunities\n            * Collect resumes from interested candidates\n            * Answer questions about NIWC Atlantic and your specific role\n            * Assist with booth setup and breakdown\n\n            ## Schedule\n            * 8:00 AM - 9:00 AM: Setup and volunteer briefing\n            * 9:00 AM - 2:00 PM: Career Fair (with rotating lunch breaks)\n            * 2:00 PM - 2:30 PM: Breakdown and cleanup\n\n            ## Contact\n            * For questions before the event, contact the Volunteer Coordinator at volunteer.coordinator@example.mil\n            * Day-of event questions: Call or text Event Lead at (555) 123-4567\n            "

def stemActivityVolunteerExpectations : String := "\n            # Volunteer Expectations - Life Budgeting STEM Activity\n\n            ## Preparation\n            * Watch the training video before the event (NWA may be used for this time)\n            * Familiarize yourself with the Life Budgeting curriculum and materials\n            * Print and prepare materials if not already provided:\n              - Bio Cards\n              - Family Cards\n              - Credit Cards\n              - Surprise Cards\n\n            ## Arrival and Check-in\n            * Arrive at the school 30 minutes before your first scheduled class\n            * Check in at the front office to receive a visitor badge\n            * Report to the classroom 15 minutes before class starts\n\n\n\n            ## Items to Bring\n            * Printed materials (if not provided by the school)\n            * Laptop (if needed for presentations)\n            * Water bottle and snacks for between sessions\n\n            ## Class Schedule\n            * 8:05 AM – 8:55 AM: Period 1\n            * 9:00 AM – 9:50 AM: Period 2\n            * 9:55 AM - 10:57 AM: Period 3\n            * 11:00 AM - 12:02 PM: Period 4\n            * 12:07 PM – 12:52 PM: Lunch Break\n            * 12:57 PM – 1:57 PM: Period 5\n            * 2:00 PM - 3:00 PM: Period 6\n\n            ## Responsibilities\n            * Deliver the Life Budgeting curriculum to each assigned class\n            * Manage student groups and activity flow\n            * Assist students with understanding financial concepts\n            * Maintain classroom discipline in partnership with the teacher\n            \n            ## Important Notes\n            * Make sure to charge hours to RG on your timecard when supporting this activity (STEM events are considered in-the-office)\n            * Lunch will not be provided; plan accordingly\n            \n            ## Contact\n            * For questions about the curriculum: education.coordinator@example.mil\n            * For day-of logistics: event.lead@example.mil or (555) 987-6543\n            "

/-- `self.example_descriptions`: an insertion-ordered mapping, embedded as an
association list in the order the Python dict literal writes it. -/
def example_descriptions : List (String × String) :=
  [("Career Fair", careerFairDescription),
   ("STEM Activity", stemActivityDescription),
   ("Workshop", workshopDescription)]

/-- `self.example_volunteer_expectations`, in dict-literal order. -/
def example_volunteer_expectations : List (String × String) :=
  [("Career Fair", careerFairVolunteerExpectations),
   ("STEM Activity", stemActivityVolunteerExpectations)]

/-- `EventGenerator._get_relevant_example`: pass 1 takes the first key that is
a substring of the lowercased event type; pass 2 the first key one of whose
whitespace-delimited words is a substring of it; otherwise
`list(values())[0]` (or `""` for an empty catalog). -/
def _get_relevant_example (event_type : String) : String :=
  let event_type_lower := lowerStr event_type
  match example_descriptions.find?
      (fun kv => containsSubstr event_type_lower (lowerStr kv.1)) with
  | some kv => kv.2
  | none =>
    match example_descriptions.find?
        (fun kv => (pySplit (lowerStr kv.1)).any
          (fun word => containsSubstr event_type_lower word)) with
    | some kv => kv.2
    | none => ((example_descriptions.map Prod.snd).headD "")

/-- `EventGenerator._get_relevant_volunteer_example`: the same two-pass
selection over `example_volunteer_expectations`. -/
def _get_relevant_volunteer_example (event_type : String) : String :=
  let event_type_lower := lowerStr event_type
  match example_volunteer_expectations.find?
      (fun kv => containsSubstr event_type_lower (lowerStr kv.1)) with
  | some kv => kv.2
  | none =>
    match example_volunteer_expectations.find?
        (fun kv => (pySplit (lowerStr kv.1)).any
          (fun word => containsSubstr event_type_lower word)) with
    | some kv => kv.2
    | none => ((example_volunteer_expectations.map Prod.snd).headD "")

/-- `EventGenerator._get_target_audience`: three term-sets tried in order. -/
def _get_target_audience (event_type : String) : String :=
  let event_type_lower := lowerStr event_type
  if ["career fair", "job", "internship"].any
      (fun term => containsSubstr event_type_lower term) then
    "students and job seekers"
  else if ["stem", "science", "math", "cyber", "robotics", "camp"].any
      (fun term => containsSubstr event_type_lower term) then
    "students and educators"
  else if ["workshop", "training", "professional"].any
      (fun term => containsSubstr event_type_lower term) then
    "professionals and educators"
  else
    "participants"

/-- The caller-supplied event mapping (spec §3): every field optional; the code
reads each through `dict.get` with a per-call-site default. -/
structure EventData where
  event_name : Option String := none
  event_type : Option String := none
  event_category : Option String := none
  location_name : Option String := none
  street_address : Option String := none
  city : Option String := none
  state : Option String := none
  venue_type : Option String := none
  start_date : Option String := none
  end_date : Option String := none
  start_time : Option String := none
  end_time : Option String := none
  is_recurring : Option String := none
  recurring_dates : Option (List String) := none

/-- The uniform failure the orchestrator catches around the model call. -/
structure GenError where
  message : String

/-- One block of the provider response's `content` sequence; `text` is the
optional `'text'` key of the dict. -/
structure ContentBlock where
  text : Option String

/-- The parsed provider response body: its optional `'content'` key. -/
structure BedrockResponse where
  content : Option (List ContentBlock)

/-- `EventGenerator._invoke_model`: everything up to and including
`json.loads` is the external call, modelled by the `resp` outcome; a failure
there is re-raised, a parsed body yields the first block's `text` or `""`.
The prompt does not influence the modelled outcome. -/
def _invoke_model (resp : Except GenError BedrockResponse) (prompt : String) :
    Except GenError String :=
  match resp with
  | .error e => .error e
  | .ok response_body =>
    let content := response_body.content.getD []
    match content with
    | first :: _ =>
      match first.text with
      | some t => .ok t
      | none => .ok ""
    | [] => .ok ""

/-- `EventGenerator._create_fallback_description`, including its
always-comma-separated location line. -/
def _create_fallback_description (event_data : EventData) : String :=
  let event_name := event_data.event_name.getD "Our upcoming event"
  let event_type := event_data.event_type.getD ""
  let location := event_data.location_name.getD "" ++ ", " ++
    event_data.city.getD "" ++ ", " ++ event_data.state.getD ""
  let time_info := _get_event_duration (event_data.start_date.getD "")
    (event_data.end_date.getD "") (event_data.start_time.getD "")
    (event_data.end_time.getD "")
  "\n        Join us for " ++ event_name ++ ", a " ++ event_type ++
    " event. \n        \n        This event will take place at " ++ location ++
    " on " ++ time_info ++
    ". Participants will have the opportunity to engage in activities related to " ++
    event_type ++
    ".\n        \n        For more information or to register, please contact the event coordinator.\n        "

/-- The arrival-time computation of
`EventGenerator._create_fallback_volunteer_expectations`:
`strptime(get("start_time", "09:00"), "%H:%M") - 45 minutes`, rendered
`"%I:%M %p"` and `lstrip("0")`-ped; a bare `except` yields the literal
phrase.  Subtracting 45 minutes from the 1900-01-01 anchor never leaves the
`datetime` range, so the time-of-day wraps modulo 24 hours. -/
def fallbackArrivalTime (event_data : EventData) : String :=
  match parseTime (event_data.start_time.getD "09:00") with
  | some (h, mi) =>
    let t := (h * 60 + mi + 1440 - 45) % 1440
    lstrip0 (fmtTime12 (t / 60) (t % 60))
  | none => "45 minutes before the event start time"

/-- `EventGenerator._create_fallback_volunteer_expectations`: the fixed
markdown document around the computed arrival time. -/
def _create_fallback_volunteer_expectations (event_data : EventData) : String :=
  let event_name := event_data.event_name.getD "the event"
  let arrival_time := fallbackArrivalTime event_data
  "\n        # Volunteer Expectations for " ++ event_name ++
    "\n        \n        Thank you for volunteering for this event. Your support is essential to making it a success!\n        \n        ## Arrival and Check-in\n        * Please arrive by " ++
    arrival_time ++
    " for check-in and briefing\n        * Check in at the main entrance/registration desk\n        * A volunteer coordinator will provide you with any necessary materials and instructions\n        \n\n        \n        ## Items to Bring\n        * Government ID/badge\n        * Water bottle\n        * Pen and notepad\n        \n        ## Responsibilities\n        * Greet and direct participants\n        * Assist with setup and breakdown\n        * Support presenters and participants as needed\n        * Other duties as assigned by the volunteer coordinator\n        \n        ## Schedule\n        * Volunteers should plan to stay until the conclusion of the event\n        * Breaks will be coordinated by the volunteer coordinator\n        \n        ## Contact\n        * For questions before the event, please contact the volunteer coordinator\n        * On the day of the event, report to the volunteer check-in desk\n        "

/-- The f-string prompt of `generate_event_description`, verbatim with its
interpolation slots as parameters. -/
def descriptionPrompt (event_name event_type event_category location_details
    time_info venue_description recurring_info target_audience
    example_description : String) : String :=
  "\n        Generate a professional, clear, and engaging event description for a " ++ event_type ++ " based on the following information:\n        \n        Event Name: " ++ event_name ++ "\n        Event Type: " ++ event_type ++ "\n        Event Category: " ++ event_category ++ "\n        Location: " ++ location_details ++ "\n        When: " ++ time_info ++ "\n        Venue Type: " ++ venue_description ++ "\n        Recurring Information: " ++ recurring_info ++ "\n        Target Audience: " ++ target_audience ++ "\n        \n        Here's an example of a good description for a similar type of event:\n        " ++ example_description ++ "\n        \n        Guidelines:\n        1. Begin with a strong opening that clearly states what the event is and its purpose\n        2. Include all essential details (what participants will do/learn, when, where, who should attend)\n        3. Highlight specific benefits for the target audience\n        4. Keep it concise (2-3 paragraphs maximum)\n        5. Use professional, engaging language appropriate for a government/military organization\n        6. For STEM events, clearly explain the activities students will participate in\n        7. For career events, emphasize networking and professional development opportunities\n        8. Include any special requirements (materials needed, prerequisites, etc.)\n        9. End with a clear call to action (registration information, contact details, etc.)\n        10. If applicable, mention that the event is hosted by NIWC Atlantic\n        \n        Format the description as a cohesive, flowing narrative without headers or labels.\n        Focus on being clear, specific, and informative while maintaining a professional tone.\n        "

/-- `EventGenerator.generate_event_description`, with the external call's
outcome passed in as `resp`. -/
def generate_event_description (resp : Except GenError BedrockResponse)
    (event_data : EventData) : String :=
  let event_name := event_data.event_name.getD ""
  let event_type := event_data.event_type.getD ""
  let location_name := event_data.location_name.getD ""
  let street_address := event_data.street_address.getD ""
  let city := event_data.city.getD ""
  let state := event_data.state.getD ""
  let time_info := _get_event_duration (event_data.start_date.getD "")
    (event_data.end_date.getD "") (event_data.start_time.getD "")
    (event_data.end_time.getD "")
  let location_parts :=
    [location_name, street_address, city, state].filter (fun p => p ≠ "")
  let location_details := String.intercalate ", " location_parts
  let venue_type := event_data.venue_type.getD ""
  let venue_description :=
    if venue_type ≠ "" then "This event will be held " ++ lowerStr venue_type ++ "."
    else ""
  let event_category := event_data.event_category.getD "Standard Event"
  let recurring_info :=
    if event_data.is_recurring.getD "No" == "Yes" then
      let recurring_dates := event_data.recurring_dates.getD []
      if recurring_dates ≠ [] then
        "This is a recurring event with additional dates: " ++
          String.intercalate ", " recurring_dates ++ "."
      else ""
    else ""
  let example_description := _get_relevant_example event_type
  let target_audience := _get_target_audience event_type
  let prompt := descriptionPrompt event_name event_type event_category
    location_details time_info venue_description recurring_info
    target_audience example_description
  match _invoke_model resp prompt with
  | .ok response => pyStrip response
  | .error _ => _create_fallback_description event_data

/-- The f-string prompt of `generate_volunteer_expectations`, verbatim. -/
def volunteerPrompt (event_name event_type time_info arrival_time : String)
    (is_multi_day : Bool) (event_description example_expectations : String) :
    String :=
  "\n        Generate detailed, specific volunteer expectations for the following event:\n        \n        Event Name: " ++ event_name ++ "\n        Event Type: " ++ event_type ++ "\n        When: " ++ time_info ++ "\n        Suggested Volunteer Arrival Time: " ++ arrival_time ++ "\n        Multi-day Event: " ++ (if is_multi_day then "Yes" else "No") ++ "\n        \n        Event Description: \n        " ++ event_description ++ "\n        \n        Here's an example of good volunteer expectations for a similar type of event:\n        " ++ example_expectations ++ "\n        \n        Guidelines:\n        1. Format as a well-organized document with clear section headers using markdown (# for main headers, ## for subheaders)\n        2. Begin with a brief, appreciative introduction thanking volunteers\n        3. Include these specific sections:\n           - Preparation: Any pre-event training or preparation required\n           - Arrival and Check-in: Specify exact arrival time (typically 45 minutes before event start) and check-in location\n\n           - Items to Bring: List specific items volunteers should bring\n           - Responsibilities: Detail specific tasks volunteers will be expected to perform\n           - Schedule: Provide a clear timeline of the volunteer duties, including breaks\n           - Contact Information: Include placeholder for coordinator contact details\n        4. For STEM events, include any curriculum details or classroom-specific guidance\n        5. For multi-day events, specify expectations for each day\n        6. Match the formality and tone to a government/military organization\n        7. Include any special instructions related to the specific venue or event type\n        8. If applicable, note how volunteers should record their hours (e.g., timecard codes)\n        \n        Be specific and practical - these instructions need to provide clear guidance for volunteers.\n        Focus on concrete details rather than general statements.\n        "

/-- The orchestrator's suggested-arrival computation in
`generate_volunteer_expectations`: attempted only when both fields are
non-empty; `datetime - 45 minutes` overflows (and is caught) only below
0001-01-01 00:45; otherwise only the time of day is rendered. -/
def suggestedArrivalTime (start_date start_time : String) : String :=
  if start_date ≠ "" && start_time ≠ "" then
    match parseDateTime (start_date ++ " " ++ start_time) with
    | some ((y, m, d), (h, mi)) =>
      if y == 1 && m == 1 && d == 1 && h * 60 + mi < 45 then
        "45 minutes before the event start time"
      else
        let t := (h * 60 + mi + 1440 - 45) % 1440
        lstrip0 (fmtTime12 (t / 60) (t % 60))
    | none => "45 minutes before the event start time"
  else ""

/-- `EventGenerator.generate_volunteer_expectations`, with the external
call's outcome passed in as `resp`. -/
def generate_volunteer_expectations (resp : Except GenError BedrockResponse)
    (event_data : EventData) (event_description : String) : String :=
  let event_name := event_data.event_name.getD ""
  let event_type := event_data.event_type.getD ""
  let arrival_time := suggestedArrivalTime (event_data.start_date.getD "")
    (event_data.start_time.getD "")
  let time_info := _get_event_duration (event_data.start_date.getD "")
    (event_data.end_date.getD "") (event_data.start_time.getD "")
    (event_data.end_time.getD "")
  let is_multi_day := event_data.start_date ≠ event_data.end_date
  let example_expectations := _get_relevant_volunteer_example event_type
  let prompt := volunteerPrompt event_name event_type time_info arrival_time
    is_multi_day event_description example_expectations
  match _invoke_model resp prompt with
  | .ok response => pyStrip response
  | .error _ => _create_fallback_volunteer_expectations event_data

/-- The claim's description of example selection, taken at its word
(C3 / spec §4.2): pass 1 returns the entry whose keyword is a substring of
the event type; pass 2 returns the entry for the first keyword that shares a
whitespace-delimited word with the event type (word equality); otherwise the
catalog's first entry.  Matching is case-insensitive. -/
def bestExampleClaimed (catalog : List (String × String)) (event_type : String) :
    String :=
  let event_type_lower := lowerStr event_type
  match catalog.find? (fun kv => containsSubstr event_type_lower (lowerStr kv.1)) with
  | some kv => kv.2
  | none =>
    match catalog.find?
        (fun kv => (pySplit (lowerStr kv.1)).any
          (fun word => (pySplit event_type_lower).contains word)) with
    | some kv => kv.2
    | none => ((catalog.map Prod.snd).headD "")

/-- The amended selection rule, the one the code implements: pass 2 keys on a
whitespace-delimited word of the keyword occurring as a substring (not
necessarily a whole word) of the lowercased event type. -/
def bestExampleAmended (catalog : List (String × String)) (event_type : String) :
    String :=
  let event_type_lower := lowerStr event_type
  match catalog.find? (fun kv => containsSubstr event_type_lower (lowerStr kv.1)) with
  | some kv => kv.2
  | none =>
    match catalog.find?
        (fun kv => (pySplit (lowerStr kv.1)).any
          (fun word => containsSubstr event_type_lower word)) with
    | some kv => kv.2
    | none => ((catalog.map Prod.snd).headD "")

/-- A fully populated event mapping, used to instantiate the theorems. -/
def sampleEventData : EventData :=
  { event_name := some "Spring Career Fair"
    event_type := some "Career Fair"
    event_category := some "Outreach"
    location_name := some "Charleston Southern University"
    street_address := some "9200 University Blvd"
    city := some "Charleston"
    state := some "SC"
    venue_type := some "Indoors"
    start_date := some "2025-06-15"
    end_date := some "2025-06-15"
    start_time := some "09:00"
    end_time := some "17:00"
    is_recurring := some "No"
    recurring_dates := none }

/-- A provider response whose `content` key is present but empty. -/
def emptyContentResponse : BedrockResponse := { content := some [] }

/-- A provider response whose first content block has no `text` key. -/
def noTextResponse : BedrockResponse := { content := some [{ text := none }] }

/-- A provider response carrying one text block. -/
def textResponse (s : String) : BedrockResponse :=
  { content := some [{ text := some s }] }

/-- The claims' "appears (case-insensitively) in `event_type`" relation:
`term` occurs as a contiguous substring of the lowercased event type. -/
def termOccurs (event_type term : String) : Prop :=
  term.data <:+: (lowerStr event_type).data

instance (event_type term : String) : Decidable (termOccurs event_type term) :=
  List.decidableInfix _ _

/-- `containsSeq` decides the sublist (substring) relation. -/
theorem containsSeq_iff (pat hay : List Char) :
    containsSeq pat hay = true ↔ pat <:+: hay := by
  induction hay with
  | nil =>
    simp [containsSeq, List.isEmpty_iff, List.infix_nil]
  | cons c t ih =>
    simp [containsSeq, List.infix_cons_iff, List.isPrefixOf_iff_prefix, ih]

theorem hour12_one_le (h : Nat) : 1 ≤ hour12 h := by
  unfold hour12
  split
  · omega
  · rename_i hb
    have := Nat.mod_lt h (y := 12) (by omega)
    simp only [beq_iff_eq] at hb
    omega

theorem hour12_le_twelve (h : Nat) : hour12 h ≤ 12 := by
  unfold hour12
  split
  · omega
  · have := Nat.mod_lt h (y := 12) (by omega)
    omega

/-- `lstrip("0")` on a `"%I:%M %p"` rendering strips exactly the hour's
leading zero, so the stripped hour is the plain decimal of `hour12`. -/
theorem lstrip0_fmtTime12 (h mi : Nat) :
    lstrip0 (fmtTime12 h mi) =
      toString (hour12 h) ++ ":" ++ pad2 mi ++ " " ++ ampm h := by
  show lstrip0 (pad2 (hour12 h) ++ ":" ++ pad2 mi ++ " " ++ ampm h) = _
  have h1 := hour12_one_le h
  have h2 := hour12_le_twelve h
  generalize hour12 h = n at *
  interval_cases n <;> rfl

theorem append_ne_empty_left (s t : String) (h : s ≠ "") : s ++ t ≠ "" := by
  intro hc
  apply h
  rw [String.ext_iff] at hc ⊢
  rw [String.data_append] at hc
  exact (List.append_eq_nil.mp hc).1

/-- The fallback description is never the empty string. -/
theorem fallback_description_ne_empty (event_data : EventData) :
    _create_fallback_description event_data ≠ "" := by
  simp only [_create_fallback_description]
  repeat' apply append_ne_empty_left
  decide

/-- C10: the description catalog has keys Career Fair, STEM Activity,
Workshop, the volunteer catalog only Career Fair, STEM Activity; on event
type "Robotics Workshop" the description selector returns the Workshop
example (pass-1 substring hit) while the volunteer selector, finding no
match at all, defaults to its first entry, the Career Fair volunteer
document — so the two selectors diverge for the same event type. -/
theorem catalogs_diverge_on_robotics_workshop :
    example_descriptions.map Prod.fst = ["Career Fair", "STEM Activity", "Workshop"] ∧
    example_volunteer_expectations.map Prod.fst = ["Career Fair", "STEM Activity"] ∧
    _get_relevant_example "Robotics Workshop" = workshopDescription ∧
    _get_relevant_volunteer_example "Robotics Workshop" = careerFairVolunteerExpectations ∧
    (example_volunteer_expectations.map Prod.snd).headD "" = careerFairVolunteerExpectations := by
  exact ⟨rfl, rfl, rfl, rfl, rfl⟩

/-- C2: at the spec's own example the multi-day branch KEEPS the leading
zero on both hours: `lstrip("0")` is applied to the whole
`"%A, %B %d, %Y at %I:%M %p"` stamp, which starts with the weekday letter,
so it never reaches the hour digit.  The code's output therefore differs
from the claimed rendering. -/
theorem multi_day_span_keeps_leading_zero :
    _get_event_duration "2025-06-15" "2025-06-16" "09:00" "17:00" =
      "Sunday, June 15, 2025 at 09:00 AM to Monday, June 16, 2025 at 05:00 PM" ∧
    _get_event_duration "2025-06-15" "2025-06-16" "09:00" "17:00" ≠
      "Sunday, June 15, 2025 at 9:00 AM to Monday, June 16, 2025 at 5:00 PM" := by
  exact ⟨rfl, by decide⟩

/-- C3 counterexample: on event type "System Demo" no catalog keyword shares
a whitespace-delimited word with the event type, so the claim's pass 2 finds
nothing and the claim predicts the catalog's first entry (the Career Fair
example); the code's pass 2, however, tests each keyword word as a raw
substring, finds "stem" inside "system", and returns the STEM Activity
example. -/
theorem example_selection_counterexample :
    _get_relevant_example "System Demo" = stemActivityDescription ∧
    bestExampleClaimed example_descriptions "System Demo" = careerFairDescription ∧
    stemActivityDescription ≠ careerFairDescription := by
  exact ⟨rfl, rfl, by decide⟩

/-- C3 amended: both selectors implement the amended rule — pass 1 keys on
the whole keyword as a substring of the lowercased event type; pass 2 keys
on a whitespace-delimited word of the keyword occurring as a substring (not
necessarily a whole shared word); with no match at all the catalog's first
entry is returned, as on "Open House". -/
theorem example_selection_amended (event_type : String) :
    _get_relevant_example event_type =
      bestExampleAmended example_descriptions event_type ∧
    _get_relevant_volunteer_example event_type =
      bestExampleAmended example_volunteer_expectations event_type ∧
    _get_relevant_example "Open House" = careerFairDescription ∧
    _get_relevant_volunteer_example "Open House" = careerFairVolunteerExpectations := by
  exact ⟨rfl, rfl, rfl, rfl⟩

/-- C4: the formatting functions are total and, when either parse fails,
echo their inputs verbatim — `_format_datetime` as `"<date> at <time>"`,
`_get_event_duration` as `"<start_date> <start_time> to <end_date> <end_time>"`. -/
theorem formatting_never_raises :
    (∀ date_str time_str : String,
      parseDate date_str = none ∨ parseTime time_str = none →
      _format_datetime date_str time_str = date_str ++ " at " ++ time_str) ∧
    (∀ start_date end_date start_time end_time : String,
      parseDateTime (start_date ++ " " ++ start_time) = none ∨
        parseDateTime (end_date ++ " " ++ end_time) = none →
      _get_event_duration start_date end_date start_time end_time =
        start_date ++ " " ++ start_time ++ " to " ++ end_date ++ " " ++ end_time) := by
  constructor
  · intro d t h
    unfold _format_datetime
    rcases h with h | h
    · rw [h]
    · rcases hd : parseDate d with _ | ⟨⟨y, m, dd⟩⟩ <;> rw [h]
  · intro sd ed st et h
    unfold _get_event_duration
    rcases h with h | h
    · rw [h]
    · rcases hs : parseDateTime (sd ++ " " ++ st) with _ | ⟨⟨⟨y, m, dd⟩, hh, mm⟩⟩ <;>
        rw [h]

/-- C4 witness: concrete malformed inputs degrade verbatim. -/
theorem formatting_never_raises_witness :
    _format_datetime "not-a-date" "09:00" = "not-a-date" ++ " at " ++ "09:00" ∧
    _get_event_duration "junk" "2025-06-16" "xx" "17:00" =
      "junk" ++ " " ++ "xx" ++ " to " ++ "2025-06-16" ++ " " ++ "17:00" := by
  exact ⟨formatting_never_raises.1 "not-a-date" "09:00" (Or.inl rfl),
    formatting_never_raises.2 "junk" "2025-06-16" "xx" "17:00" (Or.inl rfl)⟩

/-- C8: on any date parsing as `YYYY-MM-DD` and time parsing as `HH:MM`,
`_format_datetime` renders full weekday, month name, zero-padded day, year,
then `at` and the 12-hour time whose hour carries no leading zero. -/
theorem format_point_format (date_str time_str : String) (y m d h mi : Nat)
    (hd : parseDate date_str = some (y, m, d))
    (ht : parseTime time_str = some (h, mi)) :
    _format_datetime date_str time_str =
      weekdayName y m d ++ ", " ++ monthName m ++ " " ++ pad2 d ++ ", " ++
        toString y ++ " at " ++
        (toString (hour12 h) ++ ":" ++ pad2 mi ++ " " ++ ampm h) := by
  unfold _format_datetime
  rw [hd, ht]
  show fmtLongDate y m d ++ " at " ++ lstrip0 (fmtTime12 h mi) = _
  rw [lstrip0_fmtTime12]
  rfl

/-- C8 witness: the spec's example point. -/
theorem format_point_format_witness :
    _format_datetime "2025-06-15" "09:00" = "Sunday, June 15, 2025 at 9:00 AM" := by
  exact (format_point_format "2025-06-15" "09:00" 2025 6 15 9 0 rfl rfl).trans rfl

/-- C7: when the start and end date strings are equal and both combined
endpoints parse, the span renders the long date exactly once, then both
12-hour times with their hours' leading zeros stripped. -/
theorem same_day_span_format (start_date end_date start_time end_time : String)
    (y m d h1 mi1 y2 m2 d2 h2 mi2 : Nat)
    (heq : start_date = end_date)
    (hs : parseDateTime (start_date ++ " " ++ start_time) =
      some ((y, m, d), (h1, mi1)))
    (he : parseDateTime (end_date ++ " " ++ end_time) =
      some ((y2, m2, d2), (h2, mi2))) :
    _get_event_duration start_date end_date start_time end_time =
      weekdayName y m d ++ ", " ++ monthName m ++ " " ++ pad2 d ++ ", " ++
        toString y ++ ", " ++
        (toString (hour12 h1) ++ ":" ++ pad2 mi1 ++ " " ++ ampm h1) ++ " to " ++
        (toString (hour12 h2) ++ ":" ++ pad2 mi2 ++ " " ++ ampm h2) := by
  subst heq
  unfold _get_event_duration
  rw [hs, he]
  show (if (start_date == start_date) = true then _ else _) = _
  rw [beq_self_eq_true]
  show fmtLongDate y m d ++ ", " ++ lstrip0 (fmtTime12 h1 mi1) ++ " to " ++
    lstrip0 (fmtTime12 h2 mi2) = _
  rw [lstrip0_fmtTime12, lstrip0_fmtTime12]
  rfl

/-- C7 witness: the spec's same-day example. -/
theorem same_day_span_format_witness :
    _get_event_duration "2025-06-15" "2025-06-15" "09:00" "17:00" =
      "Sunday, June 15, 2025, 9:00 AM to 5:00 PM" := by
  exact (same_day_span_format "2025-06-15" "2025-06-15" "09:00" "17:00"
    2025 6 15 9 0 2025 6 15 17 0 rfl rfl rfl).trans rfl

/-- C5: the audience heuristic tests the three fixed term-sets
case-insensitively in priority order, the first matching set winning, and
defaults to "participants". -/
theorem target_audience_priority (s : String) :
    ((∃ t ∈ ["career fair", "job", "internship"], termOccurs s t) →
      _get_target_audience s = "students and job seekers") ∧
    (¬ (∃ t ∈ ["career fair", "job", "internship"], termOccurs s t) →
      (∃ t ∈ ["stem", "science", "math", "cyber", "robotics", "camp"], termOccurs s t) →
      _get_target_audience s = "students and educators") ∧
    (¬ (∃ t ∈ ["career fair", "job", "internship"], termOccurs s t) →
      ¬ (∃ t ∈ ["stem", "science", "math", "cyber", "robotics", "camp"], termOccurs s t) →
      (∃ t ∈ ["workshop", "training", "professional"], termOccurs s t) →
      _get_target_audience s = "professionals and educators") ∧
    (¬ (∃ t ∈ ["career fair", "job", "internship"], termOccurs s t) →
      ¬ (∃ t ∈ ["stem", "science", "math", "cyber", "robotics", "camp"], termOccurs s t) →
      ¬ (∃ t ∈ ["workshop", "training", "professional"], termOccurs s t) →
      _get_target_audience s = "participants") := by
  have key : ∀ terms : List String,
      (terms.any (fun term => containsSubstr (lowerStr s) term) = true) ↔
        ∃ t ∈ terms, termOccurs s t := by
    intro terms
    simp [List.any_eq_true, containsSubstr, containsSeq_iff, termOccurs]
  refine ⟨fun h1 => ?_, fun h1 h2 => ?_, fun h1 h2 h3 => ?_, fun h1 h2 h3 => ?_⟩ <;>
    unfold _get_target_audience
  · rw [if_pos ((key _).mpr h1)]
  · rw [if_neg (fun hh => h1 ((key _).mp hh)), if_pos ((key _).mpr h2)]
  · rw [if_neg (fun hh => h1 ((key _).mp hh)),
      if_neg (fun hh => h2 ((key _).mp hh)), if_pos ((key _).mpr h3)]
  · rw [if_neg (fun hh => h1 ((key _).mp hh)),
      if_neg (fun hh => h2 ((key _).mp hh)), if_neg (fun hh => h3 ((key _).mp hh))]

/-- C5 witness: the spec's two audience examples, with each set membership
decided concretely. -/
theorem target_audience_priority_witness :
    _get_target_audience "Cybersecurity Summer Camp" = "students and educators" ∧
    _get_target_audience "Executive Networking Workshop" =
      "professionals and educators" := by
  constructor
  · exact (target_audience_priority "Cybersecurity Summer Camp").2.1
      (by decide) (by decide)
  · exact (target_audience_priority "Executive Networking Workshop").2.2.1
      (by decide) (by decide) (by decide)

/-- The middle operand of a three-part concatenation is a substring. -/
theorem containsSubstr_append_three (a b c : String) :
    containsSubstr (a ++ b ++ c) b = true := by
  show containsSeq b.data (a ++ b ++ c).data = true
  rw [containsSeq_iff]
  exact ⟨a.data, c.data, by simp [String.data_append]⟩

/-- C6: the volunteer fallback's arrival time is the parsed `start_time`
(defaulting to `09:00` when the field is missing) minus 45 minutes, rendered
on the 12-hour clock with no leading zero on the hour; an unparseable value
degrades to the literal phrase; and the emitted document contains the
computed arrival string. -/
theorem fallback_arrival_time_spec (event_data : EventData) :
    (event_data.start_time = none → fallbackArrivalTime event_data = "8:15 AM") ∧
    (∀ s h mi, event_data.start_time = some s → parseTime s = some (h, mi) →
      fallbackArrivalTime event_data =
        toString (hour12 ((h * 60 + mi + 1440 - 45) % 1440 / 60)) ++ ":" ++
          pad2 ((h * 60 + mi + 1440 - 45) % 1440 % 60) ++ " " ++
          ampm ((h * 60 + mi + 1440 - 45) % 1440 / 60)) ∧
    (∀ s, event_data.start_time = some s → parseTime s = none →
      fallbackArrivalTime event_data = "45 minutes before the event start time") ∧
    containsSubstr (_create_fallback_volunteer_expectations event_data)
      (fallbackArrivalTime event_data) = true := by
  refine ⟨fun h => ?_, fun s h mi hst hp => ?_, fun s hst hp => ?_, ?_⟩
  · unfold fallbackArrivalTime
    rw [h]
    rfl
  · unfold fallbackArrivalTime
    rw [hst]
    show (match parseTime s with
      | some (h, mi) =>
        lstrip0 (fmtTime12 ((h * 60 + mi + 1440 - 45) % 1440 / 60)
          ((h * 60 + mi + 1440 - 45) % 1440 % 60))
      | none => "45 minutes before the event start time") = _
    rw [hp]
    exact lstrip0_fmtTime12 _ _
  · unfold fallbackArrivalTime
    rw [hst]
    show (match parseTime s with
      | some (h, mi) =>
        lstrip0 (fmtTime12 ((h * 60 + mi + 1440 - 45) % 1440 / 60)
          ((h * 60 + mi + 1440 - 45) % 1440 % 60))
      | none => "45 minutes before the event start time") = _
    rw [hp]
  · exact containsSubstr_append_three _ _ _

/-- C6 witness: `start_time = "09:00"` yields the arrival string `8:15 AM`,
and it occurs in the emitted document. -/
theorem fallback_arrival_time_spec_witness :
    fallbackArrivalTime sampleEventData = "8:15 AM" ∧
    containsSubstr (_create_fallback_volunteer_expectations sampleEventData)
      "8:15 AM" = true := by
  have h := ((fallback_arrival_time_spec sampleEventData).2.1 "09:00" 9 0
    rfl rfl).trans rfl
  have hc := (fallback_arrival_time_spec sampleEventData).2.2.2
  rw [h] at hc
  exact ⟨h, hc⟩

/-- C1: when the model call fails with any error, each orchestrator returns
its fallback generator's output (the failure never escapes); when the call
succeeds with response string `s`, each orchestrator returns `s` stripped of
surrounding whitespace, unmodified otherwise. -/
theorem client_failure_never_propagates (resp : Except GenError BedrockResponse)
    (event_data : EventData) (event_description s : String) (e : GenError) :
    (resp = .error e →
      generate_event_description resp event_data =
        _create_fallback_description event_data ∧
      generate_volunteer_expectations resp event_data event_description =
        _create_fallback_volunteer_expectations event_data) ∧
    ((∀ p, _invoke_model resp p = .ok s) →
      generate_event_description resp event_data = pyStrip s ∧
      generate_volunteer_expectations resp event_data event_description =
        pyStrip s) := by
  constructor
  · intro h
    subst h
    exact ⟨rfl, rfl⟩
  · intro h
    refine ⟨?_, ?_⟩ <;>
      simp only [generate_event_description, generate_volunteer_expectations] <;>
      rw [h]

/-- C1 witness: a concrete failing call returns the fallbacks, a concrete
succeeding call returns the stripped response. -/
theorem client_failure_never_propagates_witness :
    generate_event_description (.error ⟨"connection error"⟩) sampleEventData =
      _create_fallback_description sampleEventData ∧
    generate_volunteer_expectations (.error ⟨"connection error"⟩) sampleEventData
      "a description" = _create_fallback_volunteer_expectations sampleEventData ∧
    generate_event_description (.ok (textResponse "  A generated description.  "))
      sampleEventData = pyStrip "  A generated description.  " := by
  have hf := (client_failure_never_propagates (.error ⟨"connection error"⟩)
    sampleEventData "a description" "  A generated description.  "
    ⟨"connection error"⟩).1 rfl
  have hs := (client_failure_never_propagates
    (.ok (textResponse "  A generated description.  ")) sampleEventData
    "a description" "  A generated description.  " ⟨"connection error"⟩).2
    (fun p => rfl)
  exact ⟨hf.1, hf.2, hs.1⟩

/-- C9: a provider response that parses but has an empty content sequence, or
a first block without a text field, makes `_invoke_model` return the empty
string as a success; the orchestrator then returns `""` to its caller and the
fallback generator's output is not produced. -/
theorem empty_content_gives_empty_string (body : BedrockResponse)
    (event_data : EventData) (event_description : String)
    (h : body.content.getD [] = [] ∨
      ∃ b rest, body.content.getD [] = b :: rest ∧ b.text = none) :
    (∀ p, _invoke_model (.ok body) p = .ok "") ∧
    generate_event_description (.ok body) event_data = "" ∧
    generate_volunteer_expectations (.ok body) event_data event_description = "" ∧
    generate_event_description (.ok body) event_data ≠
      _create_fallback_description event_data := by
  have hinv : ∀ p, _invoke_model (.ok body) p = .ok "" := by
    intro p
    simp only [_invoke_model]
    rcases h with h | ⟨b, rest, hbr, hb⟩
    · rw [h]
    · rw [hbr]
      show (match b.text with
        | some t => (.ok t : Except GenError String)
        | none => .ok "") = .ok ""
      rw [hb]
  refine ⟨hinv, ?_, ?_, ?_⟩
  · simp only [generate_event_description]
    rw [hinv]
    rfl
  · simp only [generate_volunteer_expectations]
    rw [hinv]
    rfl
  · simp only [generate_event_description]
    rw [hinv]
    show ("" : String) ≠ _
    intro hc
    exact fallback_description_ne_empty event_data hc.symm

/-- C9 witness: both degenerate response shapes yield the empty string. -/
theorem empty_content_gives_empty_string_witness :
    generate_event_description (.ok emptyContentResponse) sampleEventData = "" ∧
    generate_event_description (.ok noTextResponse) sampleEventData = "" := by
  exact ⟨(empty_content_gives_empty_string emptyContentResponse sampleEventData ""
      (Or.inl rfl)).2.1,
    (empty_content_gives_empty_string noTextResponse sampleEventData ""
      (Or.inr ⟨⟨none⟩, [], rfl, rfl⟩)).2.1⟩
